import Mathlib

/-!
Shallow embedding of the smart-classroom backend (`src/app.py`).

Each Flask endpoint becomes a pure Lean function over an explicit store
(the Mongo collections become lists of records, passed and returned
explicitly).  JSON truthiness checks (`if not data.get(...)`) are modelled
by comparing with the empty string / `none` / zero, exactly as Python's
falsiness works on the values these endpoints receive.  bcrypt is
idealised as a collision-free salted hash: `checkpw` succeeds exactly on
the password that was hashed, which is the intended contract the code
relies on.
-/

namespace SmartClassroom

/-- Idealised bcrypt hash: records the salt and behaves as a perfectly
collision-free one-way function, so `checkpw p (hashpw p' s) = (p == p')`. -/
structure HashedPw where
  salt : Nat
  pw : String
deriving DecidableEq, Repr

/-- `bcrypt.hashpw(password, gensalt())`, with the salt made explicit. -/
def hashpw (password : String) (salt : Nat) : HashedPw :=
  ⟨salt, password⟩

/-- `bcrypt.checkpw(password, stored_hash)`. -/
def checkpw (password : String) (h : HashedPw) : Bool :=
  password == h.pw

/-- A document of the `users` collection.  The student-only fields are
`Option` because `signup` stores them only when `type == "Student"`. -/
structure User where
  username : String
  password : HashedPw
  name : String
  type : String
  class_ : Option String := none
  registerNumber : Option String := none
  mobileNumber : Option String := none
  address : Option String := none
deriving DecidableEq, Repr

/-- The JSON body of a `/signup` request (`none` = field absent). -/
structure SignupData where
  username : String
  password : String
  name : String
  type : String
  class_ : Option String := none
  registerNumber : Option String := none
  mobileNumber : Option String := none
  address : Option String := none
deriving DecidableEq, Repr

/-- An HTTP response carrying only a JSON `msg`, as `(jsonify({"msg": m}), status)`. -/
structure Resp where
  status : Nat
  msg : String
deriving DecidableEq, Repr

/-- The `/signup` handler (`signup`, src/app.py:21-64): validate the four
required fields, reject an existing username, hash the password, store the
user (with the optional student fields defaulted to `""` for students). -/
def signup (users : List User) (data : SignupData) (salt : Nat) : Resp × List User :=
  if data.username = "" ∨ data.password = "" ∨ data.name = "" ∨ data.type = "" then
    (⟨400, "All fields (username, password, name, type) are required."⟩, users)
  else if (users.find? (fun u => u.username == data.username)).isSome then
    (⟨400, "Username already exists"⟩, users)
  else
    let hashed := hashpw data.password salt
    let base : User :=
      { username := data.username, password := hashed, name := data.name, type := data.type }
    let newUser :=
      if data.type == "Student" then
        { base with
          class_ := some (data.class_.getD "")
          registerNumber := some (data.registerNumber.getD "")
          mobileNumber := some (data.mobileNumber.getD "")
          address := some (data.address.getD "") }
      else base
    (⟨201, "User created successfully!"⟩, users ++ [newUser])

/-- A JWT issued by `create_access_token(identity=username, expires_delta=timedelta(days=1))`. -/
structure Token where
  identity : String
  expiresDays : Nat
deriving DecidableEq, Repr

def createAccessToken (identity : String) : Token :=
  ⟨identity, 1⟩

/-- Result of the `/login` handler: either an error response or the JSON
`{"access_token": ..., "user": <type>, "username": ...}` with status 200. -/
inductive LoginRes where
  | err (status : Nat) (msg : String)
  | ok (accessToken : Token) (user : String) (username : String)
deriving DecidableEq, Repr

/-- The `/login` handler (`login`, src/app.py:67-87): validate fields, look
the user up by username, and check the password; a missing user and a wrong
password fall into the same `else` branch. -/
def login (users : List User) (username password : String) : LoginRes :=
  if username = "" ∨ password = "" then
    .err 400 "Username and password are required."
  else
    match users.find? (fun u => u.username == username) with
    | some user =>
        if checkpw password user.password then
          .ok (createAccessToken username) user.type user.username
        else
          .err 401 "Invalid credentials"
    | none => .err 401 "Invalid credentials"

/-- A document of the `attendance` collection. -/
structure AttRecord where
  username : String
  attendance : List String
deriving DecidableEq, Repr

/-- `update_one(filter, ...)`: update the first record matching `p` with `f`. -/
def updateFirst (p : AttRecord → Bool) (f : AttRecord → AttRecord) :
    List AttRecord → List AttRecord
  | [] => []
  | r :: rs => if p r then f r :: rs else r :: updateFirst p f rs

/-- The `/mark-attendance` handler (`mark_attendance`, src/app.py:88-119),
after `@jwt_required` has bound `username`.  `classNumber = none` models an
absent `class_number` field; `some ""` is equally falsy in Python. -/
def markAttendance (users : List User) (att : List AttRecord) (username : String)
    (classNumber : Option String) : Resp × List AttRecord :=
  match classNumber with
  | none => (⟨400, "Class number is required."⟩, att)
  | some c =>
    if c = "" then
      (⟨400, "Class number is required."⟩, att)
    else if (users.find? (fun u => u.username == username && u.type == "Student")).isNone then
      (⟨404, "Student not found."⟩, att)
    else
      match att.find? (fun r => r.username == username) with
      | some r =>
          if c ∈ r.attendance then
            (⟨400, s!"Attendance for Class {c} is already marked."⟩, att)
          else
            (⟨200, s!"Attendance for Class {c} marked."⟩,
              updateFirst (fun r2 => r2.username == username)
                (fun r2 => { r2 with attendance := r2.attendance ++ [c] }) att)
      | none =>
          (⟨200, s!"Attendance for Class {c} marked."⟩, att ++ [⟨username, [c]⟩])

/-- The marked-session list the code reads for `username` (empty when no
attendance record exists). -/
def attendanceList (att : List AttRecord) (username : String) : List String :=
  match att.find? (fun r => r.username == username) with
  | some r => r.attendance
  | none => []

/-- `round(x, 2)` on the exact rational values this code produces. -/
def round2 (x : ℚ) : ℚ :=
  (round (x * 100) : ℤ) / 100

/-- One element of the `/students` response array. -/
structure StudentRow where
  username : String
  name : String
  attendance : ℚ
  class_ : String
  registerNumber : String
  mobileNumber : String
deriving DecidableEq, Repr

/-- The per-student body of the `/students` loop (`get_students`,
src/app.py:131-148): percentage is `(count / 10) * 100`, 0 without a
record, then rounded to 2 decimals; optional fields default to `"N/A"`. -/
def studentRow (att : List AttRecord) (s : User) : StudentRow :=
  let pct : ℚ :=
    match att.find? (fun r => r.username == s.username) with
    | some r => ((r.attendance.length : ℚ) / 10) * 100
    | none => 0
  { username := s.username
    name := s.name
    attendance := round2 pct
    class_ := s.class_.getD "N/A"
    registerNumber := s.registerNumber.getD "N/A"
    mobileNumber := s.mobileNumber.getD "N/A" }

/-- The `/students` handler (`get_students`, src/app.py:121-150). -/
def getStudents (users : List User) (att : List AttRecord) : List StudentRow :=
  (users.filter (fun u => u.type == "Student")).map (studentRow att)

/-- A JSON scalar as sent in quiz-related fields: a number or a string. -/
inductive JVal where
  | num (n : Int)
  | str (s : String)
deriving DecidableEq, Repr

/-- Python falsiness of a JSON scalar (`0` and `""` are falsy). -/
def JVal.falsy : JVal → Bool
  | .num n => n == 0
  | .str s => s == ""

/-- `int(value)`: a number passes through, a string is parsed, anything
unparsable raises `ValueError` (modelled as `none`). -/
def JVal.toInt? : JVal → Option Int
  | .num n => some n
  | .str s => s.toInt?

/-- `not data.get(field)` for an optional JSON scalar field. -/
def fieldFalsy : Option JVal → Bool
  | none => true
  | some v => v.falsy

/-- A document of the `quizzes` collection: `correctAnswer` stores the
option VALUE, not the index. -/
structure Quiz where
  question : String
  options : List String
  correctAnswer : String
deriving DecidableEq, Repr

/-- Result of `/create-quiz`: a JSON response, or an uncaught Python
`IndexError` escaping the handler (the code never checks
`correct_answer` against `len(options)`). -/
inductive CQRes where
  | resp (status : Nat) (msg : String)
  | indexError
deriving DecidableEq, Repr

/-- The `/create-quiz` handler (`create_quiz`, src/app.py:152-182):
falsy-field check, `int()` conversion, range check `1 <= k <= 4`, then the
unguarded access `options[k - 1]`. -/
def createQuiz (quizzes : List Quiz) (question : String) (options : List String)
    (correctAnswer : Option JVal) : CQRes × List Quiz :=
  if question = "" ∨ options.isEmpty ∨ fieldFalsy correctAnswer then
    (.resp 400 "Please provide all the fields: question, options, and correctAnswer.", quizzes)
  else
    match correctAnswer with
    | none =>
        (.resp 400 "Please provide all the fields: question, options, and correctAnswer.", quizzes)
    | some v =>
      match v.toInt? with
      | none => (.resp 400 "Correct answer must be a number.", quizzes)
      | some k =>
        if ¬ (1 ≤ k ∧ k ≤ 4) then
          (.resp 400 "Correct answer must be between 1 and 4.", quizzes)
        else
          match options.get? (k - 1).toNat with
          | some value =>
              (.resp 201 "Quiz created successfully!",
                quizzes ++ [{ question := question, options := options, correctAnswer := value }])
          | none => (.indexError, quizzes)

/-- A document of the `quiz_results` collection. -/
structure QuizResult where
  studentUsername : String
  percentage : JVal
deriving DecidableEq, Repr

/-- The `/save-quiz-result` handler (`save_quiz_result`, src/app.py:201-221):
`if not student_username or not percentage` rejects falsy values, then the
result is inserted verbatim. -/
def saveQuizResult (results : List QuizResult) (studentUsername : Option String)
    (percentage : Option JVal) : Resp × List QuizResult :=
  match studentUsername, percentage with
  | some su, some p =>
      if su = "" ∨ p.falsy then
        (⟨400, "Student username and percentage are required."⟩, results)
      else
        (⟨201, "Quiz result saved successfully!"⟩,
          results ++ [{ studentUsername := su, percentage := p }])
  | _, _ => (⟨400, "Student username and percentage are required."⟩, results)

/-- A timetable document: an arbitrary JSON object, as key/value pairs.
`[]` models the falsy empty object. -/
abbrev TimetableDoc := List (String × String)

/-- The `/save-timetable` handler (`save_timetable`, src/app.py:265-282):
reject falsy data; `find_one()` picks the first document, and
`replace_one({}, data)` replaces that first document, otherwise insert. -/
def saveTimetable (tts : List TimetableDoc) (data : Option TimetableDoc) :
    Resp × List TimetableDoc :=
  match data with
  | none => (⟨400, "No data provided"⟩, tts)
  | some d =>
    if d.isEmpty then
      (⟨400, "No data provided"⟩, tts)
    else
      match tts with
      | [] => (⟨201, "Timetable saved successfully!"⟩, [d])
      | _ :: rest => (⟨200, "Timetable updated successfully!"⟩, d :: rest)

/-- A run of `/save-timetable` requests against the `timetable` collection. -/
def applySaves (ops : List (Option TimetableDoc)) (tts : List TimetableDoc) :
    List TimetableDoc :=
  ops.foldl (fun s op => (saveTimetable s op).2) tts

/-- A run of `/signup` requests against the `users` collection. -/
def applySignups (reqs : List (SignupData × Nat)) (users : List User) : List User :=
  reqs.foldl (fun s r => (signup s r.1 r.2).2) users

/-! ### Helper lemmas -/

theorem signup_insert (users : List User) (d : SignupData) (salt : Nat)
    (hvalid : ¬(d.username = "" ∨ d.password = "" ∨ d.name = "" ∨ d.type = ""))
    (habsent : users.find? (fun u => u.username == d.username) = none) :
    ∃ nu : User,
      signup users d salt = (⟨201, "User created successfully!"⟩, users ++ [nu]) ∧
      nu.username = d.username ∧ nu.type = d.type ∧ nu.password = hashpw d.password salt := by
  unfold signup
  rw [if_neg hvalid, habsent]
  simp only [Option.isSome_none, Bool.false_eq_true, if_false]
  exact ⟨_, rfl, by split <;> rfl, by split <;> rfl, by split <;> rfl⟩

theorem find?_username_eq_none_iff (users : List User) (un : String) :
    users.find? (fun u => u.username == un) = none ↔ un ∉ users.map User.username := by
  rw [List.find?_eq_none]
  constructor
  · intro h hmem
    rw [List.mem_map] at hmem
    obtain ⟨u, hu, hu2⟩ := hmem
    exact h u hu (by simp [hu2])
  · intro h u hu hbeq
    exact h (List.mem_map.2 ⟨u, hu, by simpa using hbeq⟩)

theorem signup_usernames_nodup (users : List User) (d : SignupData) (salt : Nat)
    (h : (users.map User.username).Nodup) :
    (((signup users d salt).2).map User.username).Nodup := by
  by_cases hv : d.username = "" ∨ d.password = "" ∨ d.name = "" ∨ d.type = ""
  · unfold signup; rw [if_pos hv]; exact h
  · cases hfd : users.find? (fun u => u.username == d.username) with
    | some u =>
        unfold signup
        rw [if_neg hv, hfd]
        simpa using h
    | none =>
        obtain ⟨nu, heq, hun, -, -⟩ := signup_insert users d salt hv hfd
        rw [show (signup users d salt).2 = users ++ [nu] from by rw [heq]]
        have hnotmem : d.username ∉ users.map User.username :=
          (find?_username_eq_none_iff users d.username).1 hfd
        simp only [List.map_append, List.map_cons, List.map_nil, List.nodup_append, hun]
        refine ⟨h, List.nodup_singleton _, ?_⟩
        intro x hx hx'
        rw [List.mem_singleton] at hx'
        exact hnotmem (hx' ▸ hx)

theorem applySignups_usernames_nodup (reqs : List (SignupData × Nat)) :
    ∀ users : List User, (users.map User.username).Nodup →
      ((applySignups reqs users).map User.username).Nodup := by
  induction reqs with
  | nil => intro users h; exact h
  | cons r rs ih =>
      intro users h
      exact ih _ (signup_usernames_nodup users r.1 r.2 h)

theorem find?_updateFirst (p : AttRecord → Bool) (f : AttRecord → AttRecord)
    (l : List AttRecord) (r : AttRecord) (hf : List.find? p l = some r)
    (hpf : p (f r) = true) :
    List.find? p (updateFirst p f l) = some (f r) := by
  induction l with
  | nil => cases hf
  | cons a l ih =>
      by_cases ha : p a
      · rw [List.find?_cons_of_pos _ ha] at hf
        injection hf with h
        subst h
        unfold updateFirst
        rw [if_pos ha]
        exact List.find?_cons_of_pos _ hpf
      · rw [List.find?_cons_of_neg _ ha] at hf
        unfold updateFirst
        rw [if_neg ha, List.find?_cons_of_neg _ ha]
        exact ih hf

/-- A successful mark appends the class number to the caller's
marked-session list (creating the record when absent). -/
theorem markAttendance_success (users : List User) (att : List AttRecord) (un c : String)
    (hc : c ≠ "")
    (hstud : (users.find? (fun u => u.username == un && u.type == "Student")).isSome = true)
    (hfresh : c ∉ attendanceList att un) :
    (markAttendance users att un (some c)).1 = ⟨200, s!"Attendance for Class {c} marked."⟩ ∧
    attendanceList (markAttendance users att un (some c)).2 un = attendanceList att un ++ [c] := by
  obtain ⟨su, hsu⟩ := Option.isSome_iff_exists.1 hstud
  cases hrec : att.find? (fun r => r.username == un) with
  | none =>
      have hempty : attendanceList att un = [] := by unfold attendanceList; rw [hrec]
      simp only [markAttendance]
      rw [if_neg hc, hsu]
      simp only [Option.isNone_some, Bool.false_eq_true, if_false]
      rw [hrec]
      refine ⟨rfl, ?_⟩
      unfold attendanceList
      rw [List.find?_append, hrec, Option.none_or,
        List.find?_cons_of_pos _ (by simp)]
      rfl
  | some r =>
      have hlist : attendanceList att un = r.attendance := by unfold attendanceList; rw [hrec]
      have hpr := List.find?_some hrec
      have hmem : c ∉ r.attendance := hlist ▸ hfresh
      simp only [markAttendance]
      rw [if_neg hc, hsu]
      simp only [Option.isNone_some, Bool.false_eq_true, if_false]
      rw [hrec]
      simp only [hmem, if_false]
      refine ⟨trivial, ?_⟩
      unfold attendanceList
      rw [find?_updateFirst _ _ _ _ hrec (by simpa using hpr), hrec]

/-- Marking a class number already present in the caller's list fails with
400 "already marked" and leaves the attendance collection unchanged. -/
theorem markAttendance_conflict (users : List User) (att : List AttRecord) (un c : String)
    (hc : c ≠ "")
    (hstud : (users.find? (fun u => u.username == un && u.type == "Student")).isSome = true)
    (hmem : c ∈ attendanceList att un) :
    markAttendance users att un (some c) =
      (⟨400, s!"Attendance for Class {c} is already marked."⟩, att) := by
  obtain ⟨su, hsu⟩ := Option.isSome_iff_exists.1 hstud
  cases hrec : att.find? (fun r => r.username == un) with
  | none =>
      exfalso
      have : attendanceList att un = [] := by unfold attendanceList; rw [hrec]
      rw [this] at hmem
      cases hmem
  | some r =>
      have hlist : attendanceList att un = r.attendance := by unfold attendanceList; rw [hrec]
      simp only [markAttendance]
      rw [if_neg hc, hsu]
      simp only [Option.isNone_some, Bool.false_eq_true, if_false]
      rw [hrec]
      simp only [hlist ▸ hmem, if_true]

/-! ### Claim theorems -/

/-- C1: for every login request, the failure result is identical for "no
user with that username" and "user exists but the password does not match":
both produce status 401 with message "Invalid credentials", so the response
does not reveal whether the username exists. -/
theorem login_failure_hides_username_existence
    (users₁ users₂ : List User) (un₁ pw₁ un₂ pw₂ : String) (usr : User)
    (h₁ : un₁ ≠ "") (h₂ : pw₁ ≠ "") (h₃ : un₂ ≠ "") (h₄ : pw₂ ≠ "")
    (hno : users₁.find? (fun u => u.username == un₁) = none)
    (hfound : users₂.find? (fun u => u.username == un₂) = some usr)
    (hbad : checkpw pw₂ usr.password = false) :
    login users₁ un₁ pw₁ = .err 401 "Invalid credentials" ∧
    login users₂ un₂ pw₂ = .err 401 "Invalid credentials" ∧
    login users₁ un₁ pw₁ = login users₂ un₂ pw₂ := by
  have e₁ : login users₁ un₁ pw₁ = .err 401 "Invalid credentials" := by
    unfold login
    rw [if_neg (by simp [h₁, h₂]), hno]
  have e₂ : login users₂ un₂ pw₂ = .err 401 "Invalid credentials" := by
    unfold login
    rw [if_neg (by simp [h₃, h₄]), hfound]
    simp [hbad]
  exact ⟨e₁, e₂, e₁.trans e₂.symm⟩

theorem login_failure_hides_username_existence_witness :
    login [] "alice" "secret" = .err 401 "Invalid credentials" ∧
    login [⟨"bob", ⟨1, "pw"⟩, "Bob", "Teacher", none, none, none, none⟩] "bob" "secret" =
      .err 401 "Invalid credentials" ∧
    login [] "alice" "secret" =
      login [⟨"bob", ⟨1, "pw"⟩, "Bob", "Teacher", none, none, none, none⟩] "bob" "secret" :=
  login_failure_hides_username_existence [] [⟨"bob", ⟨1, "pw"⟩, "Bob", "Teacher", none, none, none, none⟩]
    "alice" "secret" "bob" "secret" ⟨"bob", ⟨1, "pw"⟩, "Bob", "Teacher", none, none, none, none⟩
    (by decide) (by decide) (by decide) (by decide) rfl rfl (by decide)

/-- C2: after a successful signup of `(u, p, ...)` into a store with no
user named `u`, login with `(u, p)` succeeds and returns a token bound to
`u`, the user's role and `u`; login with any other supplied password fails
with 401 "Invalid credentials". -/
theorem register_then_authenticate
    (users : List User) (d : SignupData) (salt : Nat)
    (hu : d.username ≠ "") (hp : d.password ≠ "") (hn : d.name ≠ "") (ht : d.type ≠ "")
    (habsent : users.find? (fun u => u.username == d.username) = none) :
    (signup users d salt).1 = ⟨201, "User created successfully!"⟩ ∧
    login (signup users d salt).2 d.username d.password =
      .ok (createAccessToken d.username) d.type d.username ∧
    ∀ p', p' ≠ d.password → p' ≠ "" →
      login (signup users d salt).2 d.username p' = .err 401 "Invalid credentials" := by
  have hv : ¬(d.username = "" ∨ d.password = "" ∨ d.name = "" ∨ d.type = "") := by
    simp [hu, hp, hn, ht]
  obtain ⟨nu, heq, hun, htp, hpw⟩ := signup_insert users d salt hv habsent
  have h2 : (signup users d salt).2 = users ++ [nu] := by rw [heq]
  have h1 : (signup users d salt).1 = ⟨201, "User created successfully!"⟩ := by rw [heq]
  have hfind : (users ++ [nu]).find? (fun u => u.username == d.username) = some nu := by
    rw [List.find?_append, habsent, Option.none_or]
    exact List.find?_cons_of_pos _ (by simp [hun])
  refine ⟨h1, ?_, ?_⟩
  · rw [h2]
    unfold login
    rw [if_neg (by simp [hu, hp]), hfind]
    simp [hpw, checkpw, hashpw, htp, hun]
  · intro p' hne hne'
    rw [h2]
    unfold login
    rw [if_neg (by simp [hu, hne']), hfind]
    simp [hpw, checkpw, hashpw, hne]

theorem register_then_authenticate_witness :
    (signup [] ⟨"alice", "pw123", "Alice", "Student", none, none, none, none⟩ 7).1 =
      ⟨201, "User created successfully!"⟩ ∧
    login (signup [] ⟨"alice", "pw123", "Alice", "Student", none, none, none, none⟩ 7).2
      "alice" "pw123" = .ok (createAccessToken "alice") "Student" "alice" ∧
    login (signup [] ⟨"alice", "pw123", "Alice", "Student", none, none, none, none⟩ 7).2
      "alice" "wrong" = .err 401 "Invalid credentials" := by
  obtain ⟨a, b, c⟩ :=
    register_then_authenticate [] ⟨"alice", "pw123", "Alice", "Student", none, none, none, none⟩ 7
      (by decide) (by decide) (by decide) (by decide) rfl
  exact ⟨a, b, c "wrong" (by decide) (by decide)⟩

/-- C4: registering an already-present username fails with ConflictError
(400 "Username already exists") and inserts nothing, and every store
reachable by a sequence of signup operations from the empty store has
pairwise-distinct usernames. -/
theorem username_uniqueness_invariant :
    (∀ (users : List User) (d : SignupData) (salt : Nat),
        d.username ≠ "" → d.password ≠ "" → d.name ≠ "" → d.type ≠ "" →
        (∃ u ∈ users, u.username = d.username) →
        signup users d salt = (⟨400, "Username already exists"⟩, users)) ∧
    ∀ reqs : List (SignupData × Nat), ((applySignups reqs []).map User.username).Nodup := by
  constructor
  · rintro users d salt hu hp hn ht ⟨u, hmem, huname⟩
    cases hfd : users.find? (fun v => v.username == d.username) with
    | none =>
        rw [List.find?_eq_none] at hfd
        exact absurd (by simp [huname]) (hfd u hmem)
    | some v =>
        unfold signup
        rw [if_neg (by simp [hu, hp, hn, ht]), hfd]
        rfl
  · intro reqs
    exact applySignups_usernames_nodup reqs [] (by simp)

theorem username_uniqueness_invariant_witness :
    signup [⟨"alice", ⟨7, "pw123"⟩, "Alice", "Student", some "", some "", some "", some ""⟩]
        ⟨"alice", "other", "Alice Two", "Teacher", none, none, none, none⟩ 9 =
      (⟨400, "Username already exists"⟩,
        [⟨"alice", ⟨7, "pw123"⟩, "Alice", "Student", some "", some "", some "", some ""⟩]) :=
  username_uniqueness_invariant.1
    [⟨"alice", ⟨7, "pw123"⟩, "Alice", "Student", some "", some "", some "", some ""⟩]
    ⟨"alice", "other", "Alice Two", "Teacher", none, none, none, none⟩ 9
    (by decide) (by decide) (by decide) (by decide)
    ⟨⟨"alice", ⟨7, "pw123"⟩, "Alice", "Student", some "", some "", some "", some ""⟩,
      List.mem_singleton.2 rfl, rfl⟩

/-- C3: for a Student user and a provided class number not yet marked, the
first mark succeeds by appending the class number to the user's list, the
second mark of the same class number fails with ConflictError (400
"already marked") and leaves the attendance collection unchanged, and the
user's marked-session list grows by exactly 1 overall. -/
theorem mark_attendance_twice
    (users : List User) (att : List AttRecord) (un c : String)
    (hc : c ≠ "")
    (hstud : (users.find? (fun u => u.username == un && u.type == "Student")).isSome = true)
    (hfresh : c ∉ attendanceList att un) :
    (markAttendance users att un (some c)).1 = ⟨200, s!"Attendance for Class {c} marked."⟩ ∧
    markAttendance users (markAttendance users att un (some c)).2 un (some c) =
      (⟨400, s!"Attendance for Class {c} is already marked."⟩,
        (markAttendance users att un (some c)).2) ∧
    (attendanceList (markAttendance users att un (some c)).2 un).length =
      (attendanceList att un).length + 1 := by
  obtain ⟨hok, hgrow⟩ := markAttendance_success users att un c hc hstud hfresh
  refine ⟨hok, ?_, ?_⟩
  · exact markAttendance_conflict users _ un c hc hstud
      (by rw [hgrow]; exact List.mem_append_right _ (List.mem_singleton.2 rfl))
  · rw [hgrow, List.length_append, List.length_singleton]

theorem mark_attendance_twice_witness :
    (markAttendance [⟨"alice", ⟨7, "pw"⟩, "Alice", "Student", some "", some "", some "", some ""⟩]
        [] "alice" (some "1")).1 = ⟨200, "Attendance for Class 1 marked."⟩ ∧
    markAttendance [⟨"alice", ⟨7, "pw"⟩, "Alice", "Student", some "", some "", some "", some ""⟩]
        (markAttendance [⟨"alice", ⟨7, "pw"⟩, "Alice", "Student", some "", some "", some "", some ""⟩]
          [] "alice" (some "1")).2 "alice" (some "1") =
      (⟨400, "Attendance for Class 1 is already marked."⟩,
        (markAttendance [⟨"alice", ⟨7, "pw"⟩, "Alice", "Student", some "", some "", some "", some ""⟩]
          [] "alice" (some "1")).2) ∧
    (attendanceList (markAttendance
        [⟨"alice", ⟨7, "pw"⟩, "Alice", "Student", some "", some "", some "", some ""⟩]
        [] "alice" (some "1")).2 "alice").length = (attendanceList [] "alice").length + 1 :=
  mark_attendance_twice [⟨"alice", ⟨7, "pw"⟩, "Alice", "Student", some "", some "", some "", some ""⟩]
    [] "alice" "1" (by decide) (by decide) (by decide)

/-- C5 counterexample: a request whose token identifies a user who is not a
Student in the store AND whose class_number is absent gets the
ValidationError 400 "Class number is required.", not the NotFoundError 404
"Student not found." the claim asserts: the class_number check runs first. -/
theorem mark_attendance_nonstudent_missing_class_counterexample :
    (markAttendance [] [] "bob" none).1 = ⟨400, "Class number is required."⟩ ∧
    (markAttendance [] [] "bob" none).1 ≠ ⟨404, "Student not found."⟩ := by
  decide

/-- C5 (amended): when class_number is present and truthy, a request whose
token identifies a user who does not exist in the store with role Student
fails with NotFoundError (404 "Student not found.") and changes nothing;
when class_number is absent, the ValidationError for the missing
class_number is returned instead, because the class_number validation is
decided before the non-student check. -/
theorem mark_attendance_nonstudent_notfound
    (users : List User) (att : List AttRecord) (un c : String) (hc : c ≠ "")
    (hns : users.find? (fun u => u.username == un && u.type == "Student") = none) :
    markAttendance users att un (some c) = (⟨404, "Student not found."⟩, att) ∧
    markAttendance users att un none = (⟨400, "Class number is required."⟩, att) := by
  constructor
  · simp only [markAttendance]
    rw [if_neg hc, hns]
    rfl
  · rfl

theorem mark_attendance_nonstudent_notfound_witness :
    markAttendance [⟨"tina", ⟨3, "pw"⟩, "Tina", "Teacher", none, none, none, none⟩] [] "tina"
        (some "2") = (⟨404, "Student not found."⟩, []) ∧
    markAttendance [⟨"tina", ⟨3, "pw"⟩, "Tina", "Teacher", none, none, none, none⟩] [] "tina"
        none = (⟨400, "Class number is required."⟩, []) :=
  mark_attendance_nonstudent_notfound
    [⟨"tina", ⟨3, "pw"⟩, "Tina", "Teacher", none, none, none, none⟩] [] "tina" "2"
    (by decide) (by decide)

theorem round2_int (n : ℤ) : round2 ((n : ℚ)) = n := by
  unfold round2
  rw [show ((n : ℚ) * 100) = ((n * 100 : ℤ) : ℚ) by push_cast; ring, round_intCast]
  push_cast
  rw [mul_div_assoc]
  norm_num

theorem round2_pct (n : ℕ) : round2 ((n : ℚ) / 10 * 100) = 10 * n := by
  rw [show ((n : ℚ) / 10 * 100) = ((10 * n : ℤ) : ℚ) by push_cast; ring, round2_int]
  push_cast
  ring

theorem studentRow_attendance (att : List AttRecord) (u : User) :
    (studentRow att u).attendance =
      round2 (((attendanceList att u.username).length : ℚ) / 10 * 100) := by
  cases hrec : att.find? (fun r => r.username == u.username) with
  | none =>
      unfold studentRow attendanceList
      rw [hrec]
      norm_num
  | some r =>
      unfold studentRow attendanceList
      rw [hrec]

/-- C6: every Student user is reported by `/students` with attendance
percentage `(marked count / 10) × 100` rounded to 2 decimals, 0 when no
attendance record exists, and 30 for exactly 3 marked sessions. -/
theorem students_attendance_percentage
    (users : List User) (att : List AttRecord) (u : User)
    (hu : u ∈ users) (hs : u.type = "Student") :
    studentRow att u ∈ getStudents users att ∧
    (studentRow att u).attendance =
      round2 (((attendanceList att u.username).length : ℚ) / 10 * 100) ∧
    (att.find? (fun r => r.username == u.username) = none →
      (studentRow att u).attendance = 0) ∧
    ((attendanceList att u.username).length = 3 → (studentRow att u).attendance = 30) := by
  refine ⟨?_, studentRow_attendance att u, ?_, ?_⟩
  · exact List.mem_map.2 ⟨u, List.mem_filter.2 ⟨hu, by simp [hs]⟩, rfl⟩
  · intro hrec
    unfold studentRow
    rw [hrec]
    simpa using round2_int 0
  · intro hlen
    rw [studentRow_attendance att u, hlen,
      show (((3 : ℕ) : ℚ) / 10 * 100) = ((30 : ℤ) : ℚ) by norm_num, round2_int]
    norm_num

theorem students_attendance_percentage_witness :
    studentRow [⟨"alice", ["1", "2", "3"]⟩]
        ⟨"alice", ⟨7, "pw"⟩, "Alice", "Student", some "", some "", some "", some ""⟩ ∈
      getStudents [⟨"alice", ⟨7, "pw"⟩, "Alice", "Student", some "", some "", some "", some ""⟩]
        [⟨"alice", ["1", "2", "3"]⟩] ∧
    (studentRow [⟨"alice", ["1", "2", "3"]⟩]
        ⟨"alice", ⟨7, "pw"⟩, "Alice", "Student", some "", some "", some "", some ""⟩).attendance =
      30 := by
  obtain ⟨h1, -, -, h4⟩ :=
    students_attendance_percentage
      [⟨"alice", ⟨7, "pw"⟩, "Alice", "Student", some "", some "", some "", some ""⟩]
      [⟨"alice", ["1", "2", "3"]⟩]
      ⟨"alice", ⟨7, "pw"⟩, "Alice", "Student", some "", some "", some "", some ""⟩
      (List.mem_singleton.2 rfl) rfl
  exact ⟨h1, h4 rfl⟩

theorem createQuiz_snd_unchanged_of_no_valid_index
    (quizzes : List Quiz) (q : String) (opts : List String) (ca : Option JVal)
    (h : ¬ ∃ k : Int, ca.bind JVal.toInt? = some k ∧ 1 ≤ k ∧ k ≤ 4 ∧
        (k - 1).toNat < opts.length) :
    (createQuiz quizzes q opts ca).2 = quizzes := by
  unfold createQuiz
  split
  · rfl
  · cases ca with
    | none => rfl
    | some v =>
        simp only []
        cases hv : v.toInt? with
        | none => rfl
        | some k =>
            simp only []
            split
            · rfl
            · rename_i hr
              cases hg : opts.get? (k - 1).toNat with
              | none => rfl
              | some val =>
                  exfalso
                  obtain ⟨hlt, -⟩ := List.get?_eq_some.mp hg
                  exact h ⟨k, by simpa using hv, (not_not.mp hr).1, (not_not.mp hr).2, hlt⟩

/-- C7: quiz creation maps the 1-based numeric correct-answer index `k` with
`1 ≤ k ≤ 4` to the `k`-th option value and stores the quiz; an index outside
`[1, 4]`, or a non-numeric correct answer, fails with a 400 ValidationError
and stores nothing. -/
theorem create_quiz_maps_index
    (quizzes : List Quiz) (q : String) (opts : List String)
    (hq : q ≠ "") (ho : opts ≠ []) :
    (∀ (k : Int) (h1 : 1 ≤ k) (h2 : k ≤ 4) (hlen : (k - 1).toNat < opts.length),
        createQuiz quizzes q opts (some (.num k)) =
          (.resp 201 "Quiz created successfully!",
            quizzes ++ [{ question := q, options := opts,
                          correctAnswer := opts.get ⟨(k - 1).toNat, hlen⟩ }])) ∧
    (∀ k : Int, (k < 1 ∨ 4 < k) →
        ∃ m, createQuiz quizzes q opts (some (.num k)) = (.resp 400 m, quizzes)) ∧
    (∀ s : String, s.toInt? = none →
        ∃ m, createQuiz quizzes q opts (some (.str s)) = (.resp 400 m, quizzes)) := by
  have hguard : ∀ ca : Option JVal, fieldFalsy ca = false →
      ¬(q = "" ∨ opts.isEmpty = true ∨ fieldFalsy ca = true) := by
    intro ca hf
    simp [hq, hf, List.isEmpty_iff, ho]
  refine ⟨?_, ?_, ?_⟩
  · intro k h1 h2 hlen
    have hff : fieldFalsy (some (.num k)) = false := by
      simp only [fieldFalsy, JVal.falsy, beq_eq_false_iff_ne, ne_eq]
      omega
    unfold createQuiz
    rw [if_neg (hguard _ hff)]
    simp only [JVal.toInt?]
    rw [if_neg (not_not_intro ⟨h1, h2⟩), List.get?_eq_get hlen]
  · intro k hk
    by_cases hk0 : k = 0
    · subst hk0
      exact ⟨"Please provide all the fields: question, options, and correctAnswer.",
        by unfold createQuiz; rw [if_pos (by simp [fieldFalsy, JVal.falsy])]⟩
    · have hff : fieldFalsy (some (.num k)) = false := by
        simp [fieldFalsy, JVal.falsy, hk0]
      refine ⟨"Correct answer must be between 1 and 4.", ?_⟩
      unfold createQuiz
      rw [if_neg (hguard _ hff)]
      simp only [JVal.toInt?]
      rw [if_pos (by rintro ⟨a, b⟩; rcases hk with h | h <;> omega)]
  · intro s hs
    by_cases hs0 : s = ""
    · subst hs0
      exact ⟨"Please provide all the fields: question, options, and correctAnswer.",
        by unfold createQuiz; rw [if_pos (by simp [fieldFalsy, JVal.falsy])]⟩
    · have hff : fieldFalsy (some (.str s)) = false := by
        simp [fieldFalsy, JVal.falsy, hs0]
      refine ⟨"Correct answer must be a number.", ?_⟩
      unfold createQuiz
      rw [if_neg (hguard _ hff)]
      simp only [JVal.toInt?]
      rw [hs]

theorem create_quiz_maps_index_witness :
    createQuiz [] "Q" ["a", "b", "c", "d"] (some (.num 2)) =
      (.resp 201 "Quiz created successfully!",
        [{ question := "Q", options := ["a", "b", "c", "d"], correctAnswer := "b" }]) ∧
    ∃ m, createQuiz [] "Q" ["a", "b", "c", "d"] (some (.num 5)) = (.resp 400 m, []) := by
  obtain ⟨hmap, hrange, -⟩ :=
    create_quiz_maps_index [] "Q" ["a", "b", "c", "d"] (by decide) (by decide)
  exact ⟨hmap 2 (by decide) (by decide) (by decide), hrange 5 (by decide)⟩

/-- C9: quiz-creation validation never compares `correctAnswer` with the
length of `options`: with `options = ["a"]` and `correctAnswer = 3` all
validations pass, the index access `options[correctAnswer - 1]` is out of
bounds (an uncaught IndexError in the embedding's guarded form), no 400
ValidationError is returned and no quiz is stored; the success branch is
reachable only when `options` has at least `correctAnswer` elements. -/
theorem create_quiz_unguarded_index (quizzes : List Quiz) :
    createQuiz quizzes "Q1" ["a"] (some (.num 3)) = (.indexError, quizzes) ∧
    (∀ m, (createQuiz quizzes "Q1" ["a"] (some (.num 3))).1 ≠ .resp 400 m) ∧
    (∀ (q : String) (opts : List String) (ca : Option JVal) (st : List Quiz),
        (createQuiz quizzes q opts ca).2 = st → st ≠ quizzes →
        ∃ k : Int, ca.bind JVal.toInt? = some k ∧ 1 ≤ k ∧ k ≤ 4 ∧
          (k - 1).toNat < opts.length) := by
  have h1 : createQuiz quizzes "Q1" ["a"] (some (.num 3)) = (.indexError, quizzes) := rfl
  refine ⟨h1, ?_, ?_⟩
  · intro m hm
    rw [h1] at hm
    cases hm
  · intro q opts ca st hst hne
    by_contra hno
    exact hne (hst.symm.trans (createQuiz_snd_unchanged_of_no_valid_index quizzes q opts ca hno))

theorem create_quiz_unguarded_index_witness :
    createQuiz [] "Q1" ["a"] (some (.num 3)) = (.indexError, []) ∧
    ∃ k : Int, (some (JVal.num 2)).bind JVal.toInt? = some k ∧ 1 ≤ k ∧ k ≤ 4 ∧
      (k - 1).toNat < (["a", "b"] : List String).length := by
  obtain ⟨h1, -, h3⟩ := create_quiz_unguarded_index []
  exact ⟨h1, h3 "Q" ["a", "b"] (some (.num 2))
    [{ question := "Q", options := ["a", "b"], correctAnswer := "b" }] rfl (by decide)⟩

/-- C10: `/save-quiz-result` treats falsy-but-present fields as missing:
percentage 0, or an empty-string studentUsername, fails with 400 and stores
nothing even though both fields are supplied. -/
theorem save_quiz_result_falsy_values
    (results : List QuizResult) (su : String) (p : JVal) :
    saveQuizResult results (some su) (some (.num 0)) =
      (⟨400, "Student username and percentage are required."⟩, results) ∧
    saveQuizResult results (some "") (some p) =
      (⟨400, "Student username and percentage are required."⟩, results) := by
  constructor
  · unfold saveQuizResult
    simp [JVal.falsy]
  · unfold saveQuizResult
    simp

theorem saveTimetable_length_le (tts : List TimetableDoc) (d? : Option TimetableDoc)
    (h : tts.length ≤ 1) : ((saveTimetable tts d?).2).length ≤ 1 := by
  unfold saveTimetable
  cases d? with
  | none => exact h
  | some d =>
      simp only []
      split
      · exact h
      · cases tts with
        | nil => simp
        | cons t rest => simpa using h

theorem applySaves_length_le (ops : List (Option TimetableDoc)) :
    ∀ tts : List TimetableDoc, tts.length ≤ 1 → (applySaves ops tts).length ≤ 1 := by
  induction ops with
  | nil => intro tts h; exact h
  | cons op ops ih =>
      intro tts h
      exact ih _ (saveTimetable_length_le tts op h)

/-- C8: the timetable store never holds more than one document in any state
reachable by save operations from the empty store; a save into the empty
store inserts the payload (201), a save into a non-empty store replaces the
first (only) document (200), and saving twice leaves exactly the second
payload. -/
theorem timetable_single_document :
    (∀ ops : List (Option TimetableDoc), (applySaves ops []).length ≤ 1) ∧
    (∀ d : TimetableDoc, d ≠ [] →
        saveTimetable [] (some d) = (⟨201, "Timetable saved successfully!"⟩, [d])) ∧
    (∀ (t d : TimetableDoc) (rest : List TimetableDoc), d ≠ [] →
        saveTimetable (t :: rest) (some d) =
          (⟨200, "Timetable updated successfully!"⟩, d :: rest)) ∧
    (∀ d₁ d₂ : TimetableDoc, d₁ ≠ [] → d₂ ≠ [] →
        applySaves [some d₁, some d₂] [] = [d₂]) := by
  have hins : ∀ d : TimetableDoc, d ≠ [] →
      saveTimetable [] (some d) = (⟨201, "Timetable saved successfully!"⟩, [d]) := by
    intro d hd
    unfold saveTimetable
    simp [List.isEmpty_iff, hd]
  have hrep : ∀ (t d : TimetableDoc) (rest : List TimetableDoc), d ≠ [] →
      saveTimetable (t :: rest) (some d) =
        (⟨200, "Timetable updated successfully!"⟩, d :: rest) := by
    intro t d rest hd
    unfold saveTimetable
    simp [List.isEmpty_iff, hd]
  refine ⟨fun ops => applySaves_length_le ops [] (by simp), hins, hrep, ?_⟩
  intro d₁ d₂ h₁ h₂
  show (saveTimetable (saveTimetable [] (some d₁)).2 (some d₂)).2 = [d₂]
  rw [hins d₁ h₁]
  simp only []
  rw [hrep d₁ d₂ [] h₂]

theorem timetable_single_document_witness :
    applySaves [some [("monday", "math")], some [("monday", "biology")]] [] =
      [[("monday", "biology")]] :=
  timetable_single_document.2.2.2 [("monday", "math")] [("monday", "biology")]
    (by decide) (by decide)

end SmartClassroom
